import Mathlib

/-!
Shallow embedding of the vSphere provider decision logic from
`pkg/providers/vsphere/vsphere.go` (package `vsphere` of eks-anywhere),
together with proofs of the spec's testable properties about it.

Go structs are embedded as Lean structures (only the fields the embedded
functions read), Go maps as association lists with `List.lookup`, fallible
calls as `Except`/`Option`, and the kubectl/govc side effects as an explicit
environment record plus an event trace where ordering matters.
-/

/-- Embedding of `v1alpha1.UserConfiguration`: a machine user with its SSH authorized keys. -/
structure UserConfiguration where
  Name : String
  SshAuthorizedKeys : List String
deriving DecidableEq

/-- A Kubernetes taint, as carried by worker node group configurations. -/
structure Taint where
  Key : String
  Value : String
  Effect : String
deriving DecidableEq

/-- Embedding of `v1alpha1.VSphereMachineConfigSpec`: the VM shape fields read by the
provider's decision functions. -/
structure VSphereMachineConfigSpec where
  NumCPUs : Int
  MemoryMiB : Int
  DiskGiB : Int
  Datastore : String
  Folder : String
  ResourcePool : String
  Template : String
  StoragePolicyName : String
  OSFamily : String
  Users : List UserConfiguration
deriving DecidableEq

/-- Embedding of `v1alpha1.VSphereMachineConfig`: named machine config object. -/
structure VSphereMachineConfig where
  Name : String
  Spec : VSphereMachineConfigSpec
deriving DecidableEq

/-- Embedding of `v1alpha1.VSphereDatacenterConfigSpec`: connection/location facts. -/
structure VSphereDatacenterConfigSpec where
  Server : String
  Datacenter : String
  Network : String
  Thumbprint : String
  Insecure : Bool
  DisableCSI : Bool
deriving DecidableEq

/-- Embedding of `v1alpha1.VSphereDatacenterConfig`: named datacenter config object. -/
structure VSphereDatacenterConfig where
  Name : String
  Spec : VSphereDatacenterConfigSpec
deriving DecidableEq

/-- Embedding of `v1alpha1.Ref`: a named reference to a machine/datacenter config. -/
structure Ref where
  Kind : String
  Name : String
deriving DecidableEq

/-- Control plane endpoint (`Endpoint.Host`). -/
structure Endpoint where
  Host : String
deriving DecidableEq

/-- Embedding of `v1alpha1.ControlPlaneConfiguration`. -/
structure ControlPlaneConfiguration where
  Count : Int
  Endpoint : Endpoint
  MachineGroupRef : Ref
deriving DecidableEq

/-- Embedding of `v1alpha1.WorkerNodeGroupConfiguration`: a named worker group with its
machine group reference, taints and labels (label map as an assoc list). -/
structure WorkerNodeGroupConfiguration where
  Name : String
  Count : Int
  MachineGroupRef : Ref
  Taints : List Taint
  Labels : List (String × String)
deriving DecidableEq

/-- Embedding of `v1alpha1.ExternalEtcdConfiguration`. -/
structure ExternalEtcdConfiguration where
  Count : Int
  MachineGroupRef : Ref
deriving DecidableEq

/-- Embedding of `v1alpha1.ClusterSpec` (the CRD-level cluster topology spec). -/
structure ClusterConfigSpec where
  KubernetesVersion : String
  ControlPlaneConfiguration : ControlPlaneConfiguration
  WorkerNodeGroupConfigurations : List WorkerNodeGroupConfiguration
  ExternalEtcdConfiguration : Option ExternalEtcdConfiguration
  DatacenterRef : Ref
deriving DecidableEq

/-- Embedding of `v1alpha1.Cluster`: the top-level cluster object (name, namespace, spec). -/
structure Cluster where
  Name : String
  Ns : String
  Spec : ClusterConfigSpec
deriving DecidableEq

/-- Embedding of the `releasev1alpha1` bundles spec: carries the versions-bundle number. -/
structure BundlesSpec where
  Number : Int
deriving DecidableEq

/-- Bundles object wrapping `BundlesSpec`. -/
structure Bundles where
  Spec : BundlesSpec
deriving DecidableEq

/-- A pinned component image (only the digest is compared by the code). -/
structure Image where
  ImageDigest : String
deriving DecidableEq

/-- The vSphere section of a versions bundle: component version plus the four
pinned component images compared by `UpgradeNeeded`. -/
structure VSphereBundle where
  Version : String
  Driver : Image
  Syncer : Image
  Manager : Image
  KubeVip : Image
deriving DecidableEq

/-- Embedding of `cluster.Spec`'s versions bundle (vSphere section only). -/
structure VersionsBundle where
  VSphere : VSphereBundle
deriving DecidableEq

/-- Embedding of `cluster.Spec`: the fully resolved spec handed to the provider; the Go
map `VSphereMachineConfigs` is an association list keyed by config name. -/
structure ClusterSpec where
  Cluster : Cluster
  Bundles : Bundles
  VersionsBundle : VersionsBundle
  VSphereDatacenter : VSphereDatacenterConfig
  VSphereMachineConfigs : List (String × VSphereMachineConfig)
deriving DecidableEq

/-- Modelled from the spec: `v1alpha1.TaintsSliceEqual` (the taint list of a
worker group; "taint list changed" is list inequality). The function itself
lives in `pkg/api/v1alpha1`, outside the provided sources. -/
def TaintsSliceEqual (a b : List Taint) : Bool :=
  a == b

/-- Modelled from the spec: `v1alpha1.MapEqual` on label maps (assoc lists).
The function itself lives in `pkg/api/v1alpha1`, outside the provided
sources. -/
def MapEqual (a b : List (String × String)) : Bool :=
  a == b

/-- Modelled from the spec: `v1alpha1.UsersSliceEqual` ("SSH-authorized-user
list changed" is list inequality). Lives in `pkg/api/v1alpha1`, outside the
provided sources. -/
def UsersSliceEqual (a b : List UserConfiguration) : Bool :=
  a == b

/-- Modelled from the spec: `v1alpha1.WorkerNodeGroupConfigurationSliceTaintsEqual`
compares the taints of same-named worker groups of the old and new specs.
Lives in `pkg/api/v1alpha1`, outside the provided sources. -/
def WorkerNodeGroupConfigurationSliceTaintsEqual
    (oldWngs newWngs : List WorkerNodeGroupConfiguration) : Bool :=
  newWngs.all fun n =>
    match oldWngs.find? (fun o => o.Name == n.Name) with
    | some o => TaintsSliceEqual o.Taints n.Taints
    | none => true

/-- Modelled from the spec: `v1alpha1.WorkerNodeGroupConfigurationsLabelsMapEqual`
compares the label maps of same-named worker groups of the old and new specs.
Lives in `pkg/api/v1alpha1`, outside the provided sources. -/
def WorkerNodeGroupConfigurationsLabelsMapEqual
    (oldWngs newWngs : List WorkerNodeGroupConfiguration) : Bool :=
  newWngs.all fun n =>
    match oldWngs.find? (fun o => o.Name == n.Name) with
    | some o => MapEqual o.Labels n.Labels
    | none => true

/-- Modelled from the spec: `Cluster.MachineConfigRefs` collects every
machine-group reference in the topology (control plane, workers, external
etcd). The method lives in `pkg/api/v1alpha1`, outside the provided sources. -/
def Cluster.MachineConfigRefs (c : Cluster) : List Ref :=
  [c.Spec.ControlPlaneConfiguration.MachineGroupRef]
    ++ c.Spec.WorkerNodeGroupConfigurations.map (·.MachineGroupRef)
    ++ (match c.Spec.ExternalEtcdConfiguration with
        | some e => [e.MachineGroupRef]
        | none => [])

/-- Embedding of `AnyImmutableFieldChanged` (vsphere.go:512): short-circuit comparison of
the nine template-affecting machine/datacenter fields, in source order. -/
def AnyImmutableFieldChanged (oldVdc newVdc : VSphereDatacenterConfig)
    (oldVmc newVmc : VSphereMachineConfig) : Bool :=
  if oldVmc.Spec.NumCPUs ≠ newVmc.Spec.NumCPUs then true
  else if oldVmc.Spec.MemoryMiB ≠ newVmc.Spec.MemoryMiB then true
  else if oldVmc.Spec.DiskGiB ≠ newVmc.Spec.DiskGiB then true
  else if oldVmc.Spec.Datastore ≠ newVmc.Spec.Datastore then true
  else if oldVmc.Spec.Folder ≠ newVmc.Spec.Folder then true
  else if oldVdc.Spec.Network ≠ newVdc.Spec.Network then true
  else if oldVmc.Spec.ResourcePool ≠ newVmc.Spec.ResourcePool then true
  else if oldVdc.Spec.Thumbprint ≠ newVdc.Spec.Thumbprint then true
  else if oldVmc.Spec.Template ≠ newVmc.Spec.Template then true
  else false

/-- Embedding of `NeedsNewControlPlaneTemplate` (vsphere.go:467): kubernetes version,
control-plane endpoint host, bundle number, then the immutable-field diff. -/
def NeedsNewControlPlaneTemplate (oldSpec newSpec : ClusterSpec)
    (oldVdc newVdc : VSphereDatacenterConfig)
    (oldVmc newVmc : VSphereMachineConfig) : Bool :=
  if oldSpec.Cluster.Spec.KubernetesVersion ≠ newSpec.Cluster.Spec.KubernetesVersion then true
  else if oldSpec.Cluster.Spec.ControlPlaneConfiguration.Endpoint.Host
      ≠ newSpec.Cluster.Spec.ControlPlaneConfiguration.Endpoint.Host then true
  else if oldSpec.Bundles.Spec.Number ≠ newSpec.Bundles.Spec.Number then true
  else AnyImmutableFieldChanged oldVdc newVdc oldVmc newVmc

/-- Embedding of `NeedsNewWorkloadTemplate` (vsphere.go:483). -/
def NeedsNewWorkloadTemplate (oldSpec newSpec : ClusterSpec)
    (oldVdc newVdc : VSphereDatacenterConfig)
    (oldVmc newVmc : VSphereMachineConfig) : Bool :=
  if oldSpec.Cluster.Spec.KubernetesVersion ≠ newSpec.Cluster.Spec.KubernetesVersion then true
  else if oldSpec.Bundles.Spec.Number ≠ newSpec.Bundles.Spec.Number then true
  else if !WorkerNodeGroupConfigurationSliceTaintsEqual
        oldSpec.Cluster.Spec.WorkerNodeGroupConfigurations
        newSpec.Cluster.Spec.WorkerNodeGroupConfigurations
      || !WorkerNodeGroupConfigurationsLabelsMapEqual
        oldSpec.Cluster.Spec.WorkerNodeGroupConfigurations
        newSpec.Cluster.Spec.WorkerNodeGroupConfigurations then true
  else AnyImmutableFieldChanged oldVdc newVdc oldVmc newVmc

/-- Embedding of `NeedsNewKubeadmConfigTemplate` (vsphere.go:497). -/
def NeedsNewKubeadmConfigTemplate
    (newWorkerNodeGroup oldWorkerNodeGroup : WorkerNodeGroupConfiguration)
    (oldWorkerNodeVmc newWorkerNodeVmc : VSphereMachineConfig) : Bool :=
  !TaintsSliceEqual newWorkerNodeGroup.Taints oldWorkerNodeGroup.Taints
    || !MapEqual newWorkerNodeGroup.Labels oldWorkerNodeGroup.Labels
    || !UsersSliceEqual oldWorkerNodeVmc.Spec.Users newWorkerNodeVmc.Spec.Users

/-- Embedding of `NeedsNewEtcdTemplate` (vsphere.go:502). -/
def NeedsNewEtcdTemplate (oldSpec newSpec : ClusterSpec)
    (oldVdc newVdc : VSphereDatacenterConfig)
    (oldVmc newVmc : VSphereMachineConfig) : Bool :=
  if oldSpec.Cluster.Spec.KubernetesVersion ≠ newSpec.Cluster.Spec.KubernetesVersion then true
  else if oldSpec.Bundles.Spec.Number ≠ newSpec.Bundles.Spec.Number then true
  else AnyImmutableFieldChanged oldVdc newVdc oldVmc newVmc

/-- Constant `vSphereUsernameKey` (vsphere.go:38). -/
def vSphereUsernameKey : String := "VSPHERE_USERNAME"

/-- Constant `vSpherePasswordKey` (vsphere.go:39). -/
def vSpherePasswordKey : String := "VSPHERE_PASSWORD"

/-- Modelled from the spec: `etcdv1.UpgradeInProgressAnnotation`, the
"upgrade in progress" marker key written onto the live EtcdadmCluster; the
constant comes from the external etcdadm-controller API package. -/
def upgradeInProgressKey : String := "etcdadm.cluster.x-k8s.io/upgrade-in-progress"

/-- Modelled from the spec: `common.CPMachineTemplateName` mints a
timestamp-suffixed control-plane machine template name (cluster name +
generation timestamp). Lives in `pkg/providers/common`, outside the provided
sources. -/
def CPMachineTemplateName (clusterName : String) (t : Nat) : String :=
  clusterName ++ "-control-plane-template-" ++ toString t

/-- Modelled from the spec: `common.WorkerMachineTemplateName` (cluster name +
node group + generation timestamp). Lives in `pkg/providers/common`, outside
the provided sources. -/
def WorkerMachineTemplateName (clusterName wngName : String) (t : Nat) : String :=
  clusterName ++ "-" ++ wngName ++ "-" ++ toString t

/-- Modelled from the spec: `common.KubeadmConfigTemplateName` (cluster name +
node group + generation timestamp). Lives in `pkg/providers/common`, outside
the provided sources. -/
def KubeadmConfigTemplateName (clusterName wngName : String) (t : Nat) : String :=
  clusterName ++ "-" ++ wngName ++ "-template-" ++ toString t

/-- Modelled from the spec: `common.EtcdMachineTemplateName` (cluster name +
generation timestamp). Lives in `pkg/providers/common`, outside the provided
sources. -/
def EtcdMachineTemplateName (clusterName : String) (t : Nat) : String :=
  clusterName ++ "-etcd-template-" ++ toString t

/-- Embedding of `machineDeploymentName` (vsphere.go:1022). -/
def machineDeploymentName (clusterName nodeGroupName : String) : String :=
  clusterName ++ "-" ++ nodeGroupName

/-- Live `KubeadmControlPlane`: only the infrastructure template reference
name (`cp.Spec.MachineTemplate.InfrastructureRef.Name`) is read. -/
structure KubeadmControlPlane where
  InfrastructureRefName : String
deriving DecidableEq

/-- Live `MachineDeployment`: the code reads the infrastructure template
reference name and the bootstrap config reference name. -/
structure MachineDeployment where
  InfrastructureRefName : String
  BootstrapConfigRefName : String
deriving DecidableEq

/-- Live `EtcdadmCluster`: only `Spec.InfrastructureTemplate.Name` is read. -/
structure EtcdadmClusterObj where
  InfrastructureTemplateName : String
deriving DecidableEq

/-- The cluster credentials secret: the code reads `Data["password"]` and
`Data["username"]`. -/
structure CredSecret where
  Password : String
  Username : String
deriving DecidableEq

/-- The `ProviderKubectlClient` dependency of the provider, embedded as the
responses the live cluster gives to each read, plus whether the annotation
write and manifest apply succeed. `none` models a call returning an error. -/
structure ProviderKubectlClient where
  getEksaCluster : Option Cluster
  getEksaVSphereDatacenterConfig : String → Option VSphereDatacenterConfig
  getEksaVSphereMachineConfig : String → Option VSphereMachineConfig
  getKubeadmControlPlane : Option KubeadmControlPlane
  getMachineDeployment : String → Option MachineDeployment
  getEtcdadmCluster : Option EtcdadmClusterObj
  getSecretFromNamespace : Option CredSecret
  updateAnnotOk : Bool
  applyOk : Bool

/-- Process environment read via `os.Getenv` (the two credential keys). -/
structure OsEnv where
  VspherePassword : String
  VsphereUsername : String
deriving DecidableEq

/-- Embedding of `machineRefSliceToMap` (vsphere.go:1014): index refs by name. -/
def machineRefSliceToMap (machineRefs : List Ref) : List (String × Ref) :=
  machineRefs.map fun r => (r.Name, r)

/-- Modelled from the spec: `cluster.BuildMapForWorkerNodeGroupsByName`
indexes worker node group configurations by name. Lives in `pkg/cluster`,
outside the provided sources. -/
def BuildMapForWorkerNodeGroupsByName (wngs : List WorkerNodeGroupConfiguration) :
    List (String × WorkerNodeGroupConfiguration) :=
  wngs.map fun w => (w.Name, w)

/-- Embedding of `validateMachineConfigImmutability` (vsphere.go:929): fetch the previous
machine config and reject a change of `StoragePolicyName` or `OSFamily`. -/
def validateMachineConfigImmutability (k : ProviderKubectlClient)
    (newConfig : VSphereMachineConfig) : Except String Unit :=
  match k.getEksaVSphereMachineConfig newConfig.Name with
  | none => Except.error "GetEksaVSphereMachineConfig"
  | some prevMachineConfig =>
    if newConfig.Spec.StoragePolicyName ≠ prevMachineConfig.Spec.StoragePolicyName then
      Except.error ("spec.storagePolicyName is immutable. Previous value "
        ++ prevMachineConfig.Spec.StoragePolicyName ++ ", new value "
        ++ newConfig.Spec.StoragePolicyName)
    else if newConfig.Spec.OSFamily ≠ prevMachineConfig.Spec.OSFamily then
      Except.error ("spec.osFamily is immutable. Previous value "
        ++ prevMachineConfig.Spec.OSFamily ++ ", new value "
        ++ newConfig.Spec.OSFamily)
    else Except.ok ()

/-- The machine-config loop of `ValidateNewSpec` (vsphere.go:865-877): look
up each referenced machine config in the new spec, and run the immutability
check for those that existed in the previous spec (matched by name). -/
def validateMachineConfigsLoop (k : ProviderKubectlClient) (clusterSpec : ClusterSpec)
    (prevMachineConfigRefs : List (String × Ref)) :
    List Ref → Except String Unit
  | [] => Except.ok ()
  | machineConfigRef :: rest =>
    match clusterSpec.VSphereMachineConfigs.lookup machineConfigRef.Name with
    | none => Except.error ("cannot find machine config " ++ machineConfigRef.Name
        ++ " in vsphere provider machine configs")
    | some machineConfig =>
      match prevMachineConfigRefs.lookup machineConfig.Name with
      | some _ =>
        match validateMachineConfigImmutability k machineConfig with
        | Except.error e => Except.error e
        | Except.ok () => validateMachineConfigsLoop k clusterSpec prevMachineConfigRefs rest
      | none => validateMachineConfigsLoop k clusterSpec prevMachineConfigRefs rest

/-- Embedding of `secretContentsChanged` (vsphere.go:946): compare the live credentials
secret with the currently configured environment values (password first). -/
def secretContentsChanged (k : ProviderKubectlClient) (env : OsEnv) : Except String Bool :=
  match k.getSecretFromNamespace with
  | none => Except.error ("obtaining VSphere secret vsphere-credentials from workload cluster")
  | some oSecret =>
    if oSecret.Password ≠ env.VspherePassword then Except.ok true
    else if oSecret.Username ≠ env.VsphereUsername then Except.ok true
    else Except.ok false

/-- Embedding of `ValidateNewSpec` (vsphere.go:847): fetch the previous cluster and its
datacenter config, run per-machine-config immutability checks, then the
datacenter immutability checks (server, datacenter, network), then the
credential-drift check. -/
def ValidateNewSpec (k : ProviderKubectlClient) (env : OsEnv)
    (clusterSpec : ClusterSpec) : Except String Unit :=
  match k.getEksaCluster with
  | none => Except.error "GetEksaCluster"
  | some prevSpec =>
  match k.getEksaVSphereDatacenterConfig prevSpec.Spec.DatacenterRef.Name with
  | none => Except.error "GetEksaVSphereDatacenterConfig"
  | some prevDatacenter =>
    let oSpec := prevDatacenter.Spec
    let nSpec := clusterSpec.VSphereDatacenter.Spec
    let prevMachineConfigRefs := machineRefSliceToMap prevSpec.MachineConfigRefs
    match validateMachineConfigsLoop k clusterSpec prevMachineConfigRefs
        clusterSpec.Cluster.MachineConfigRefs with
    | Except.error e => Except.error e
    | Except.ok () =>
      if nSpec.Server ≠ oSpec.Server then
        Except.error ("spec.server is immutable. Previous value " ++ oSpec.Server
          ++ ", new value " ++ nSpec.Server)
      else if nSpec.Datacenter ≠ oSpec.Datacenter then
        Except.error ("spec.datacenter is immutable. Previous value " ++ oSpec.Datacenter
          ++ ", new value " ++ nSpec.Datacenter)
      else if nSpec.Network ≠ oSpec.Network then
        Except.error ("spec.network is immutable. Previous value " ++ oSpec.Network
          ++ ", new value " ++ nSpec.Network)
      else
        match secretContentsChanged k env with
        | Except.error e => Except.error e
        | Except.ok secretChanged =>
          if secretChanged then
            Except.error ("the VSphere credentials derived from " ++ vSpherePasswordKey
              ++ " and " ++ vSphereUsernameKey
              ++ " are immutable; please use the same credentials for the upgraded cluster")
          else Except.ok ()

/-- Embedding of `machineConfigsSpecChanged` (vsphere.go:192): for every machine config
referenced by the currently-applied cluster, fetch the live config and
compare its spec (DeepEqual) with the same-named entry of the new spec; a
missing entry or a differing spec means changed. -/
def machineConfigsSpecChanged (k : ProviderKubectlClient) (newClusterSpec : ClusterSpec) :
    List Ref → Except String Bool
  | [] => Except.ok false
  | oldMcRef :: rest =>
    match k.getEksaVSphereMachineConfig oldMcRef.Name with
    | none => Except.error "GetEksaVSphereMachineConfig"
    | some existingVmc =>
      match newClusterSpec.VSphereMachineConfigs.lookup oldMcRef.Name with
      | none => Except.ok true
      | some csmc =>
        if existingVmc.Spec ≠ csmc.Spec then Except.ok true
        else machineConfigsSpecChanged k newClusterSpec rest

/-- Embedding of `UpgradeNeeded` (vsphere.go:988): any of the four pinned image digests
changed, or the live datacenter config spec differs from the new one, or any
live machine config spec differs. -/
def UpgradeNeeded (k : ProviderKubectlClient) (newSpec currentSpec : ClusterSpec) :
    Except String Bool :=
  let newV := newSpec.VersionsBundle.VSphere
  let oldV := currentSpec.VersionsBundle.VSphere
  if newV.Driver.ImageDigest ≠ oldV.Driver.ImageDigest
      ∨ newV.Syncer.ImageDigest ≠ oldV.Syncer.ImageDigest
      ∨ newV.Manager.ImageDigest ≠ oldV.Manager.ImageDigest
      ∨ newV.KubeVip.ImageDigest ≠ oldV.KubeVip.ImageDigest then
    Except.ok true
  else
    let cc := currentSpec.Cluster
    match k.getEksaVSphereDatacenterConfig cc.Spec.DatacenterRef.Name with
    | none => Except.error "GetEksaVSphereDatacenterConfig"
    | some existingVdc =>
      if existingVdc.Spec ≠ newSpec.VSphereDatacenter.Spec then Except.ok true
      else machineConfigsSpecChanged k newSpec cc.MachineConfigRefs

/-- Modelled from the spec: the embedded `config/defaultStorageClass.yaml`
manifest bytes (the file contents are outside the provided sources; the
constant is an opaque marker for those bytes). -/
def defaultStorageClass : String := "config/defaultStorageClass.yaml"

/-- The provider state relevant to storage class installation:
`csiEnabled` as set at construction. -/
structure VsphereProvider where
  csiEnabled : Bool
deriving DecidableEq

/-- Embedding of `NewProviderCustomNet` (vsphere.go:166), restricted to the construction
of the state read by `InstallStorageClass`: `csiEnabled` is the negation of
the datacenter config's `DisableCSI`. -/
def NewProviderCustomNet (datacenterConfig : VSphereDatacenterConfig) : VsphereProvider :=
  { csiEnabled := !datacenterConfig.Spec.DisableCSI }

/-- Embedding of `ApplyKubeSpecFromBytes` of the kubectl client: appends the manifest to
the cluster's applied-manifest list, or fails. -/
def ApplyKubeSpecFromBytes (k : ProviderKubectlClient) (applied : List String)
    (data : String) : Except String (List String) :=
  if k.applyOk then Except.ok (applied ++ [data]) else Except.error "apply failed"

/-- Embedding of `InstallStorageClass` (vsphere.go:706): nothing when CSI is disabled,
otherwise apply the embedded default storage class manifest. -/
def InstallStorageClass (p : VsphereProvider) (k : ProviderKubectlClient)
    (applied : List String) : Except String (List String) :=
  if !p.csiEnabled then Except.ok applied
  else ApplyKubeSpecFromBytes k applied defaultStorageClass

/-- First SSH authorized key of the first user of a machine config
(`machineConfig.Spec.Users[0].SshAuthorizedKeys[0]`); `none` models the Go
index panic when either list is empty. -/
def firstSSHKey (mc : VSphereMachineConfig) : Option String :=
  match mc.Spec.Users with
  | [] => none
  | u :: _ => u.SshAuthorizedKeys.head?

/-- Overwrite the first SSH authorized key of the first user (the slice
aliasing in the Go code makes `user.SshAuthorizedKeys[0] = k` mutate the
machine config's own key array). -/
def setFirstSSHKey (mc : VSphereMachineConfig) (key : String) : VSphereMachineConfig :=
  match mc.Spec.Users with
  | [] => mc
  | u :: us =>
    { mc with Spec := { mc.Spec with Users :=
        { u with SshAuthorizedKeys :=
            match u.SshAuthorizedKeys with
            | [] => []
            | _ :: ks => key :: ks } :: us } }

/-- Embedding of `generateSSHKeysIfNotSet` (vsphere.go:228), with the `generatedKey`
variable and the number of `GenerateSSHAuthKey` calls threaded explicitly;
`gen` is the key generator (`common.GenerateSSHAuthKey`), indexed by how many
keys were generated so far, with `none` modelling a generation error. The Go
map iteration is embedded as a list traversal. -/
def generateSSHKeysIfNotSet (gen : Nat → Option String) (generatedKey : String)
    (count : Nat) : List VSphereMachineConfig →
    Option (List VSphereMachineConfig × Nat)
  | [] => some ([], count)
  | machineConfig :: rest =>
    match firstSSHKey machineConfig with
    | none => none
    | some k =>
      if k = "" then
        if generatedKey ≠ "" then
          (generateSSHKeysIfNotSet gen generatedKey count rest).map
            fun p => (setFirstSSHKey machineConfig generatedKey :: p.1, p.2)
        else
          match gen count with
          | none => none
          | some newKey =>
            (generateSSHKeysIfNotSet gen newKey (count + 1) rest).map
              fun p => (setFirstSSHKey machineConfig newKey :: p.1, p.2)
      else
        (generateSSHKeysIfNotSet gen generatedKey count rest).map
          fun p => (machineConfig :: p.1, p.2)

/-- Embedding of `getWorkerNodeMachineConfigs` (vsphere.go:901): when the worker group
existed in the previous spec, the "old" config is the entry of the new
spec's machine config map and the "new" config is fetched live; otherwise
both are nil (`none`). -/
def getWorkerNodeMachineConfigs (k : ProviderKubectlClient)
    (newClusterSpec : ClusterSpec)
    (workerNodeGroupConfiguration : WorkerNodeGroupConfiguration)
    (prevWorkerNodeGroupConfigs : List (String × WorkerNodeGroupConfiguration)) :
    Except String (Option VSphereMachineConfig × Option VSphereMachineConfig) :=
  match prevWorkerNodeGroupConfigs.lookup workerNodeGroupConfiguration.Name with
  | some _ =>
    let oldWorkerMachineConfig := newClusterSpec.VSphereMachineConfigs.lookup
      workerNodeGroupConfiguration.MachineGroupRef.Name
    match k.getEksaVSphereMachineConfig workerNodeGroupConfiguration.MachineGroupRef.Name with
    | none => Except.error "GetEksaVSphereMachineConfig"
    | some newWorkerMachineConfig =>
      Except.ok (oldWorkerMachineConfig, some newWorkerMachineConfig)
  | none => Except.ok (none, none)

/-- Embedding of `needsNewMachineTemplate` (vsphere.go:913): groups present in the
previous spec delegate to `NeedsNewWorkloadTemplate`; a group absent from the
previous index needs a new template unconditionally. Dereferencing a nil
machine config (a Go panic) is modelled as an error. -/
def needsNewMachineTemplate (currentSpec newClusterSpec : ClusterSpec)
    (workerNodeGroupConfiguration : WorkerNodeGroupConfiguration)
    (vdc : VSphereDatacenterConfig)
    (prevWorkerNodeGroupConfigs : List (String × WorkerNodeGroupConfiguration))
    (oldWorkerMachineConfig newWorkerMachineConfig : Option VSphereMachineConfig) :
    Except String Bool :=
  match prevWorkerNodeGroupConfigs.lookup workerNodeGroupConfiguration.Name with
  | some _ =>
    match oldWorkerMachineConfig, newWorkerMachineConfig with
    | some oldVmc, some newVmc =>
      Except.ok (NeedsNewWorkloadTemplate currentSpec newClusterSpec vdc
        newClusterSpec.VSphereDatacenter oldVmc newVmc)
    | _, _ => Except.error "nil machine config"
  | none => Except.ok true

/-- Embedding of `needsNewKubeadmConfigTemplate` (vsphere.go:921, the provider method):
groups present in the previous spec delegate to the exported
`NeedsNewKubeadmConfigTemplate`; a group absent from the previous index needs
a new template unconditionally. -/
def needsNewKubeadmConfigTemplate
    (workerNodeGroupConfiguration : WorkerNodeGroupConfiguration)
    (prevWorkerNodeGroupConfigs : List (String × WorkerNodeGroupConfiguration))
    (oldWorkerNodeVmc newWorkerNodeVmc : Option VSphereMachineConfig) :
    Except String Bool :=
  match prevWorkerNodeGroupConfigs.lookup workerNodeGroupConfiguration.Name with
  | some existingWorkerNodeGroupConfig =>
    match oldWorkerNodeVmc, newWorkerNodeVmc with
    | some oldVmc, some newVmc =>
      Except.ok (NeedsNewKubeadmConfigTemplate workerNodeGroupConfiguration
        existingWorkerNodeGroupConfig oldVmc newVmc)
    | _, _ => Except.error "nil machine config"
  | none => Except.ok true

/-- Modelled from the spec: the rendered control-plane manifest is the
deterministic image of the spec and the two template names placed in the
value map by `generateCAPISpecForUpgrade` (the text templating is an opaque
render service). -/
structure CAPIControlPlaneSpecBytes where
  Spec : ClusterSpec
  ControlPlaneTemplateName : String
  EtcdTemplateName : String
deriving DecidableEq

/-- Modelled from the spec: the rendered workers manifest is the
deterministic image of the spec and the per-group template name maps. -/
structure CAPIWorkersSpecBytes where
  Spec : ClusterSpec
  WorkloadTemplateNames : List (String × String)
  KubeadmconfigTemplateNames : List (String × String)
deriving DecidableEq

/-- Externally observable effects of `generateCAPISpecForUpgrade`, in
execution order: the EtcdadmCluster annotation write and the minting of the
new etcd machine template name. -/
inductive ProvEvent where
  | updateAnnot (resourceType objectName key value : String)
  | mintEtcdTemplate (name : String)
deriving DecidableEq

/-- Control-plane phase of `generateCAPISpecForUpgrade` (vsphere.go:556-570):
decide whether a new control-plane template is needed and resolve its name
(reuse the live KubeadmControlPlane's reference, or mint a fresh name). -/
def cpTemplatePhase (k : ProviderKubectlClient) (now : Nat)
    (currentSpec newClusterSpec : ClusterSpec) (c : Cluster)
    (vdc : VSphereDatacenterConfig) : Except String String :=
  match newClusterSpec.VSphereMachineConfigs.lookup
      newClusterSpec.Cluster.Spec.ControlPlaneConfiguration.MachineGroupRef.Name with
  | none => Except.error "nil control plane machine config"
  | some controlPlaneMachineConfig =>
  match k.getEksaVSphereMachineConfig
      c.Spec.ControlPlaneConfiguration.MachineGroupRef.Name with
  | none => Except.error "GetEksaVSphereMachineConfig"
  | some controlPlaneVmc =>
    if NeedsNewControlPlaneTemplate currentSpec newClusterSpec vdc
        newClusterSpec.VSphereDatacenter controlPlaneVmc controlPlaneMachineConfig then
      Except.ok (CPMachineTemplateName newClusterSpec.Cluster.Name now)
    else
      match k.getKubeadmControlPlane with
      | none => Except.error "GetKubeadmControlPlane"
      | some cp => Except.ok cp.InfrastructureRefName

/-- One iteration of the worker loop of `generateCAPISpecForUpgrade`
(vsphere.go:576-615): resolve the kubeadm-config template name and the
workload template name for one worker node group. -/
def workerGroupNames (k : ProviderKubectlClient) (now : Nat)
    (currentSpec newClusterSpec : ClusterSpec) (vdc : VSphereDatacenterConfig)
    (prevWorkerNodeGroupConfigs : List (String × WorkerNodeGroupConfiguration))
    (workerNodeGroupConfiguration : WorkerNodeGroupConfiguration) :
    Except String (String × String) :=
  match getWorkerNodeMachineConfigs k newClusterSpec workerNodeGroupConfiguration
      prevWorkerNodeGroupConfigs with
  | Except.error e => Except.error e
  | Except.ok (oldWorkerNodeVmc, newWorkerNodeVmc) =>
  match needsNewMachineTemplate currentSpec newClusterSpec
      workerNodeGroupConfiguration vdc prevWorkerNodeGroupConfigs
      oldWorkerNodeVmc newWorkerNodeVmc with
  | Except.error e => Except.error e
  | Except.ok needsNewWorkloadTemplate =>
  match needsNewKubeadmConfigTemplate workerNodeGroupConfiguration
      prevWorkerNodeGroupConfigs oldWorkerNodeVmc newWorkerNodeVmc with
  | Except.error e => Except.error e
  | Except.ok needsNewKubeadmConfig =>
  let kubeadmName :=
    if needsNewKubeadmConfig then
      Except.ok (KubeadmConfigTemplateName newClusterSpec.Cluster.Name
        workerNodeGroupConfiguration.Name now)
    else
      match k.getMachineDeployment (machineDeploymentName newClusterSpec.Cluster.Name
          workerNodeGroupConfiguration.Name) with
      | none => Except.error "GetMachineDeployment"
      | some md => Except.ok md.BootstrapConfigRefName
  match kubeadmName with
  | Except.error e => Except.error e
  | Except.ok kubeadmconfigTemplateName =>
  let workloadName :=
    if needsNewWorkloadTemplate then
      Except.ok (WorkerMachineTemplateName newClusterSpec.Cluster.Name
        workerNodeGroupConfiguration.Name now)
    else
      match k.getMachineDeployment (machineDeploymentName newClusterSpec.Cluster.Name
          workerNodeGroupConfiguration.Name) with
      | none => Except.error "GetMachineDeployment"
      | some md => Except.ok md.InfrastructureRefName
  match workloadName with
  | Except.error e => Except.error e
  | Except.ok workloadTemplateName =>
    Except.ok (workloadTemplateName, kubeadmconfigTemplateName)

/-- The worker loop of `generateCAPISpecForUpgrade`, accumulating the
per-group template name maps in iteration order. -/
def workerPhase (k : ProviderKubectlClient) (now : Nat)
    (currentSpec newClusterSpec : ClusterSpec) (vdc : VSphereDatacenterConfig)
    (prevWorkerNodeGroupConfigs : List (String × WorkerNodeGroupConfiguration)) :
    List WorkerNodeGroupConfiguration →
    Except String (List (String × String) × List (String × String))
  | [] => Except.ok ([], [])
  | wng :: rest =>
    match workerGroupNames k now currentSpec newClusterSpec vdc
        prevWorkerNodeGroupConfigs wng with
    | Except.error e => Except.error e
    | Except.ok (workloadTemplateName, kubeadmconfigTemplateName) =>
      match workerPhase k now currentSpec newClusterSpec vdc
          prevWorkerNodeGroupConfigs rest with
      | Except.error e => Except.error e
      | Except.ok (wNames, kNames) =>
        Except.ok ((wng.Name, workloadTemplateName) :: wNames,
          (wng.Name, kubeadmconfigTemplateName) :: kNames)

/-- Etcd phase of `generateCAPISpecForUpgrade` (vsphere.go:617-644): when an
external etcd is configured, decide whether a new etcd template is needed;
if so, write the upgrade-in-progress marker onto the live EtcdadmCluster and
only then mint the new template name. The returned trace records the
annotation write and the minting, in order. -/
def etcdPhase (k : ProviderKubectlClient) (now : Nat)
    (currentSpec newClusterSpec : ClusterSpec) (c : Cluster)
    (vdc : VSphereDatacenterConfig) : List ProvEvent × Except String String :=
  match newClusterSpec.Cluster.Spec.ExternalEtcdConfiguration with
  | none => ([], Except.ok "")
  | some ecfg =>
    match newClusterSpec.VSphereMachineConfigs.lookup ecfg.MachineGroupRef.Name with
    | none => ([], Except.error "nil etcd machine config")
    | some etcdMachineConfig =>
    match c.Spec.ExternalEtcdConfiguration with
    | none => ([], Except.error "nil previous external etcd configuration")
    | some cEcfg =>
    match k.getEksaVSphereMachineConfig cEcfg.MachineGroupRef.Name with
    | none => ([], Except.error "GetEksaVSphereMachineConfig")
    | some etcdMachineVmc =>
      if NeedsNewEtcdTemplate currentSpec newClusterSpec vdc
          newClusterSpec.VSphereDatacenter etcdMachineVmc etcdMachineConfig then
        let writeEv := ProvEvent.updateAnnot "etcdadmcluster"
          (newClusterSpec.Cluster.Name ++ "-etcd") upgradeInProgressKey "true"
        if k.updateAnnotOk then
          ([writeEv, ProvEvent.mintEtcdTemplate
              (EtcdMachineTemplateName newClusterSpec.Cluster.Name now)],
           Except.ok (EtcdMachineTemplateName newClusterSpec.Cluster.Name now))
        else ([writeEv], Except.error "UpdateAnnot failed")
      else
        match k.getEtcdadmCluster with
        | none => ([], Except.error "GetEtcdadmCluster")
        | some etcdadmCluster => ([], Except.ok etcdadmCluster.InfrastructureTemplateName)

/-- Embedding of `generateCAPISpecForUpgrade` (vsphere.go:543): fetch the live cluster and
datacenter config, resolve the control-plane template name, the per-worker
group names, and the etcd template name (writing the upgrade marker when a
new etcd template is needed), then render the two manifests. Paired with the
trace of externally observable effects. -/
def generateCAPISpecForUpgrade (k : ProviderKubectlClient) (now : Nat)
    (currentSpec newClusterSpec : ClusterSpec) :
    List ProvEvent × Except String (CAPIControlPlaneSpecBytes × CAPIWorkersSpecBytes) :=
  match k.getEksaCluster with
  | none => ([], Except.error "GetEksaCluster")
  | some c =>
  match k.getEksaVSphereDatacenterConfig newClusterSpec.VSphereDatacenter.Name with
  | none => ([], Except.error "GetEksaVSphereDatacenterConfig")
  | some vdc =>
  match cpTemplatePhase k now currentSpec newClusterSpec c vdc with
  | Except.error e => ([], Except.error e)
  | Except.ok controlPlaneTemplateName =>
  match workerPhase k now currentSpec newClusterSpec vdc
      (BuildMapForWorkerNodeGroupsByName
        currentSpec.Cluster.Spec.WorkerNodeGroupConfigurations)
      newClusterSpec.Cluster.Spec.WorkerNodeGroupConfigurations with
  | Except.error e => ([], Except.error e)
  | Except.ok (workloadTemplateNames, kubeadmconfigTemplateNames) =>
  match etcdPhase k now currentSpec newClusterSpec c vdc with
  | (tr, Except.error e) => (tr, Except.error e)
  | (tr, Except.ok etcdTemplateName) =>
    (tr, Except.ok
      ({ Spec := newClusterSpec
         ControlPlaneTemplateName := controlPlaneTemplateName
         EtcdTemplateName := etcdTemplateName },
       { Spec := newClusterSpec
         WorkloadTemplateNames := workloadTemplateNames
         KubeadmconfigTemplateNames := kubeadmconfigTemplateNames }))

/-- String containment: `sub` occurs contiguously inside `s`. -/
def ContainsStr (s sub : String) : Prop := ∃ a b, s = a ++ sub ++ b

theorem strAppend_assoc (a b c : String) : a ++ b ++ c = a ++ (b ++ c) :=
  String.ext (by simp [String.data_append, List.append_assoc])

theorem containsStr_mid (a sub b : String) : ContainsStr (a ++ sub ++ b) sub :=
  ⟨a, b, rfl⟩

theorem containsStr_last (a sub : String) : ContainsStr (a ++ sub) sub :=
  ⟨a, "", by rw [strAppend_assoc, String.append_empty]⟩

theorem containsStr_mid4 (p1 sub p2 t : String) :
    ContainsStr (p1 ++ sub ++ p2 ++ t) sub :=
  ⟨p1, p2 ++ t, by rw [strAppend_assoc (p1 ++ sub) p2 t]⟩

/-- Concrete control-plane machine config for closed witnesses. -/
def mcEx : VSphereMachineConfig :=
  { Name := "cp-mc"
    Spec := { NumCPUs := 2, MemoryMiB := 8192, DiskGiB := 25, Datastore := "ds1",
              Folder := "f1", ResourcePool := "rp1", Template := "ubuntu-121",
              StoragePolicyName := "", OSFamily := "ubuntu",
              Users := [{ Name := "capv", SshAuthorizedKeys := ["ssh-rsa AAA"] }] } }

/-- Concrete worker machine config for closed witnesses. -/
def workerMcEx : VSphereMachineConfig :=
  { mcEx with Name := "worker-mc" }

/-- Concrete etcd machine config for closed witnesses. -/
def etcdMcEx : VSphereMachineConfig :=
  { mcEx with Name := "etcd-mc" }

/-- Concrete datacenter config for closed witnesses. -/
def vdcEx : VSphereDatacenterConfig :=
  { Name := "dc"
    Spec := { Server := "vc.example.com", Datacenter := "SDDC", Network := "net1",
              Thumbprint := "", Insecure := false, DisableCSI := false } }

/-- Concrete datacenter config with CSI disabled. -/
def vdcExNoCSI : VSphereDatacenterConfig :=
  { vdcEx with Spec := { vdcEx.Spec with DisableCSI := true } }

/-- Concrete worker node group for closed witnesses. -/
def wngEx : WorkerNodeGroupConfiguration :=
  { Name := "md-0", Count := 3
    MachineGroupRef := { Kind := "VSphereMachineConfig", Name := "worker-mc" }
    Taints := [], Labels := [] }

/-- Concrete cluster object for closed witnesses. -/
def clusterEx : Cluster :=
  { Name := "test", Ns := "default"
    Spec := { KubernetesVersion := "1.21"
              ControlPlaneConfiguration :=
                { Count := 1, Endpoint := { Host := "1.2.3.4" }
                  MachineGroupRef := { Kind := "VSphereMachineConfig", Name := "cp-mc" } }
              WorkerNodeGroupConfigurations := [wngEx]
              ExternalEtcdConfiguration := some
                { Count := 1
                  MachineGroupRef := { Kind := "VSphereMachineConfig", Name := "etcd-mc" } }
              DatacenterRef := { Kind := "VSphereDatacenterConfig", Name := "dc" } } }

/-- Concrete fully-resolved cluster spec for closed witnesses. -/
def specEx : ClusterSpec :=
  { Cluster := clusterEx
    Bundles := { Spec := { Number := 1 } }
    VersionsBundle := { VSphere :=
      { Version := "v100", Driver := { ImageDigest := "d1" }
        Syncer := { ImageDigest := "s1" }, Manager := { ImageDigest := "m1" }
        KubeVip := { ImageDigest := "k1" } } }
    VSphereDatacenter := vdcEx
    VSphereMachineConfigs :=
      [("cp-mc", mcEx), ("worker-mc", workerMcEx), ("etcd-mc", etcdMcEx)] }

/-- Fixture: `specEx` with only the control-plane endpoint host changed. -/
def specExHostB : ClusterSpec :=
  { specEx with Cluster := { clusterEx with Spec := { clusterEx.Spec with
      ControlPlaneConfiguration := { clusterEx.Spec.ControlPlaneConfiguration with
        Endpoint := { Host := "5.6.7.8" } } } } }

/-- Concrete kubectl client environment where every read succeeds. -/
def kEx : ProviderKubectlClient :=
  { getEksaCluster := some clusterEx
    getEksaVSphereDatacenterConfig := fun name => if name = "dc" then some vdcEx else none
    getEksaVSphereMachineConfig := fun name =>
      if name = "cp-mc" then some mcEx
      else if name = "worker-mc" then some workerMcEx
      else if name = "etcd-mc" then some etcdMcEx
      else none
    getKubeadmControlPlane := some { InfrastructureRefName := "test-cp-old" }
    getMachineDeployment := fun _ =>
      some { InfrastructureRefName := "test-md-old", BootstrapConfigRefName := "test-kct-old" }
    getEtcdadmCluster := some { InfrastructureTemplateName := "test-etcd-old" }
    getSecretFromNamespace := some { Password := "pw", Username := "user" }
    updateAnnotOk := true
    applyOk := true }

/-- Claim C1 counterexample: a pair of specs with identical Kubernetes
version, identical bundle number and identical template-affecting
machine/datacenter fields, differing only in the control-plane endpoint
host, on which `NeedsNewControlPlaneTemplate` returns true rather than the
false the claim demands. -/
theorem NeedsNewControlPlaneTemplate_host_counterexample :
    (specEx.Cluster.Spec.KubernetesVersion = specExHostB.Cluster.Spec.KubernetesVersion
      ∧ specEx.Bundles.Spec.Number = specExHostB.Bundles.Spec.Number
      ∧ AnyImmutableFieldChanged vdcEx vdcEx mcEx mcEx = false)
    ∧ NeedsNewControlPlaneTemplate specEx specExHostB vdcEx vdcEx mcEx mcEx = true := by
  decide

/-- Claim C1 (amended): for every pair of cluster specs with identical
Kubernetes version, identical control-plane endpoint host, identical
versions-bundle number and identical template-affecting machine-config and
datacenter-config fields, `NeedsNewControlPlaneTemplate` returns false. -/
theorem NeedsNewControlPlaneTemplate_false_when_all_unchanged
    (oldSpec newSpec : ClusterSpec) (oldVdc newVdc : VSphereDatacenterConfig)
    (oldVmc newVmc : VSphereMachineConfig)
    (hver : oldSpec.Cluster.Spec.KubernetesVersion = newSpec.Cluster.Spec.KubernetesVersion)
    (hhost : oldSpec.Cluster.Spec.ControlPlaneConfiguration.Endpoint.Host
      = newSpec.Cluster.Spec.ControlPlaneConfiguration.Endpoint.Host)
    (hnum : oldSpec.Bundles.Spec.Number = newSpec.Bundles.Spec.Number)
    (hcpu : oldVmc.Spec.NumCPUs = newVmc.Spec.NumCPUs)
    (hmem : oldVmc.Spec.MemoryMiB = newVmc.Spec.MemoryMiB)
    (hdisk : oldVmc.Spec.DiskGiB = newVmc.Spec.DiskGiB)
    (hds : oldVmc.Spec.Datastore = newVmc.Spec.Datastore)
    (hfolder : oldVmc.Spec.Folder = newVmc.Spec.Folder)
    (hrp : oldVmc.Spec.ResourcePool = newVmc.Spec.ResourcePool)
    (htpl : oldVmc.Spec.Template = newVmc.Spec.Template)
    (hnet : oldVdc.Spec.Network = newVdc.Spec.Network)
    (hthumb : oldVdc.Spec.Thumbprint = newVdc.Spec.Thumbprint) :
    NeedsNewControlPlaneTemplate oldSpec newSpec oldVdc newVdc oldVmc newVmc = false := by
  unfold NeedsNewControlPlaneTemplate AnyImmutableFieldChanged
  simp_all

/-- Witness for the amended C1 theorem at a concrete unchanged pair. -/
theorem NeedsNewControlPlaneTemplate_false_when_all_unchanged_witness :
    NeedsNewControlPlaneTemplate specEx specEx vdcEx vdcEx mcEx mcEx = false :=
  NeedsNewControlPlaneTemplate_false_when_all_unchanged specEx specEx vdcEx vdcEx mcEx mcEx
    rfl rfl rfl rfl rfl rfl rfl rfl rfl rfl rfl rfl

/-- Claim C3: `AnyImmutableFieldChanged` returns true iff at least one of
exactly the nine template-affecting fields differs (machine-config numCPUs,
memoryMiB, diskGiB, datastore, folder, resourcePool, template reference, or
datacenter-config network, TLS thumbprint); in particular any pair differing
only in DiskGiB yields true, and any change outside the nine fields (with
all nine equal) yields false. -/
theorem AnyImmutableFieldChanged_characterization :
    (∀ (oldVdc newVdc : VSphereDatacenterConfig) (oldVmc newVmc : VSphereMachineConfig),
      AnyImmutableFieldChanged oldVdc newVdc oldVmc newVmc = true ↔
        (oldVmc.Spec.NumCPUs ≠ newVmc.Spec.NumCPUs
          ∨ oldVmc.Spec.MemoryMiB ≠ newVmc.Spec.MemoryMiB
          ∨ oldVmc.Spec.DiskGiB ≠ newVmc.Spec.DiskGiB
          ∨ oldVmc.Spec.Datastore ≠ newVmc.Spec.Datastore
          ∨ oldVmc.Spec.Folder ≠ newVmc.Spec.Folder
          ∨ oldVmc.Spec.ResourcePool ≠ newVmc.Spec.ResourcePool
          ∨ oldVmc.Spec.Template ≠ newVmc.Spec.Template
          ∨ oldVdc.Spec.Network ≠ newVdc.Spec.Network
          ∨ oldVdc.Spec.Thumbprint ≠ newVdc.Spec.Thumbprint))
    ∧ (∀ (vdc : VSphereDatacenterConfig) (mc : VSphereMachineConfig) (d : Int),
      d ≠ mc.Spec.DiskGiB →
      AnyImmutableFieldChanged vdc vdc mc
        { mc with Spec := { mc.Spec with DiskGiB := d } } = true)
    ∧ (∀ (oldVdc newVdc : VSphereDatacenterConfig) (oldVmc newVmc : VSphereMachineConfig),
      oldVmc.Spec.NumCPUs = newVmc.Spec.NumCPUs →
      oldVmc.Spec.MemoryMiB = newVmc.Spec.MemoryMiB →
      oldVmc.Spec.DiskGiB = newVmc.Spec.DiskGiB →
      oldVmc.Spec.Datastore = newVmc.Spec.Datastore →
      oldVmc.Spec.Folder = newVmc.Spec.Folder →
      oldVmc.Spec.ResourcePool = newVmc.Spec.ResourcePool →
      oldVmc.Spec.Template = newVmc.Spec.Template →
      oldVdc.Spec.Network = newVdc.Spec.Network →
      oldVdc.Spec.Thumbprint = newVdc.Spec.Thumbprint →
      AnyImmutableFieldChanged oldVdc newVdc oldVmc newVmc = false) := by
  refine ⟨?_, ?_, ?_⟩
  · intro oldVdc newVdc oldVmc newVmc
    unfold AnyImmutableFieldChanged
    split_ifs <;> simp_all
  · intro vdc mc d hd
    have h : mc.Spec.DiskGiB ≠ d := fun h => hd h.symm
    unfold AnyImmutableFieldChanged
    simp [h]
  · intro oldVdc newVdc oldVmc newVmc h1 h2 h3 h4 h5 h6 h7 h8 h9
    unfold AnyImmutableFieldChanged
    simp_all

/-- Witness for C3 at a concrete pair differing only in DiskGiB (the claim's
third clause, a change outside the nine fields, is exercised on the
OSFamily field). -/
theorem AnyImmutableFieldChanged_characterization_witness :
    ((3 : Int) ≠ mcEx.Spec.DiskGiB
      ∧ AnyImmutableFieldChanged vdcEx vdcEx mcEx
          { mcEx with Spec := { mcEx.Spec with DiskGiB := 3 } } = true)
    ∧ AnyImmutableFieldChanged vdcEx vdcEx mcEx
        { mcEx with Spec := { mcEx.Spec with OSFamily := "bottlerocket" } } = false :=
  ⟨⟨by decide, AnyImmutableFieldChanged_characterization.2.1 vdcEx mcEx 3 (by decide)⟩,
   AnyImmutableFieldChanged_characterization.2.2 vdcEx vdcEx mcEx
     { mcEx with Spec := { mcEx.Spec with OSFamily := "bottlerocket" } }
     rfl rfl rfl rfl rfl rfl rfl rfl rfl⟩

/-- Claim C4: a worker node group of the new spec whose name is absent from
the previous spec's group-by-name index makes both the workload-template
decision and the kubeadm-config-template decision unconditionally true,
regardless of any field equality (the machine configs are arbitrary,
including absent ones). -/
theorem newWorkerGroup_forces_new_templates
    (currentSpec newClusterSpec : ClusterSpec) (wng : WorkerNodeGroupConfiguration)
    (vdc : VSphereDatacenterConfig)
    (prevWngs : List WorkerNodeGroupConfiguration)
    (oldWorkerVmc newWorkerVmc : Option VSphereMachineConfig)
    (habsent : (BuildMapForWorkerNodeGroupsByName prevWngs).lookup wng.Name = none) :
    needsNewMachineTemplate currentSpec newClusterSpec wng vdc
      (BuildMapForWorkerNodeGroupsByName prevWngs) oldWorkerVmc newWorkerVmc
      = Except.ok true
    ∧ needsNewKubeadmConfigTemplate wng (BuildMapForWorkerNodeGroupsByName prevWngs)
      oldWorkerVmc newWorkerVmc = Except.ok true := by
  unfold needsNewMachineTemplate needsNewKubeadmConfigTemplate
  rw [habsent]
  exact ⟨rfl, rfl⟩

/-- Witness for C4: the group "md-1" is absent from the index of the
previous spec's only group "md-0". -/
theorem newWorkerGroup_forces_new_templates_witness :
    ((BuildMapForWorkerNodeGroupsByName [wngEx]).lookup "md-1" = none)
    ∧ (needsNewMachineTemplate specEx specEx { wngEx with Name := "md-1" } vdcEx
        (BuildMapForWorkerNodeGroupsByName [wngEx]) (some workerMcEx) (some workerMcEx)
        = Except.ok true
      ∧ needsNewKubeadmConfigTemplate { wngEx with Name := "md-1" }
        (BuildMapForWorkerNodeGroupsByName [wngEx]) (some workerMcEx) (some workerMcEx)
        = Except.ok true) :=
  ⟨by decide,
   newWorkerGroup_forces_new_templates specEx specEx { wngEx with Name := "md-1" } vdcEx
     [wngEx] (some workerMcEx) (some workerMcEx) (by decide)⟩

/-- Claim C5: for a pair of specs equal in all respects except the
Kubernetes version (old "1.23", new "1.24"), `NeedsNewControlPlaneTemplate`,
`NeedsNewWorkloadTemplate` and `NeedsNewEtcdTemplate` all return true. -/
theorem needsNew_all_true_on_version_bump (s : ClusterSpec)
    (vdc : VSphereDatacenterConfig) (vmc : VSphereMachineConfig) :
    NeedsNewControlPlaneTemplate
        { s with Cluster := { s.Cluster with Spec :=
            { s.Cluster.Spec with KubernetesVersion := "1.23" } } }
        { s with Cluster := { s.Cluster with Spec :=
            { s.Cluster.Spec with KubernetesVersion := "1.24" } } }
        vdc vdc vmc vmc = true
    ∧ NeedsNewWorkloadTemplate
        { s with Cluster := { s.Cluster with Spec :=
            { s.Cluster.Spec with KubernetesVersion := "1.23" } } }
        { s with Cluster := { s.Cluster with Spec :=
            { s.Cluster.Spec with KubernetesVersion := "1.24" } } }
        vdc vdc vmc vmc = true
    ∧ NeedsNewEtcdTemplate
        { s with Cluster := { s.Cluster with Spec :=
            { s.Cluster.Spec with KubernetesVersion := "1.23" } } }
        { s with Cluster := { s.Cluster with Spec :=
            { s.Cluster.Spec with KubernetesVersion := "1.24" } } }
        vdc vdc vmc vmc = true := by
  refine ⟨?_, ?_, ?_⟩ <;>
    simp [NeedsNewControlPlaneTemplate, NeedsNewWorkloadTemplate, NeedsNewEtcdTemplate]

/-- Claim C9: a provider constructed from a datacenter config with
DisableCSI set installs no storage class and leaves the applied-manifest
state unchanged; with DisableCSI unset it applies exactly the embedded
default storage-class manifest. -/
theorem InstallStorageClass_csi_gate
    (datacenterConfig : VSphereDatacenterConfig) (k : ProviderKubectlClient)
    (applied : List String) :
    (datacenterConfig.Spec.DisableCSI = true →
      InstallStorageClass (NewProviderCustomNet datacenterConfig) k applied
        = Except.ok applied)
    ∧ (datacenterConfig.Spec.DisableCSI = false → k.applyOk = true →
      InstallStorageClass (NewProviderCustomNet datacenterConfig) k applied
        = Except.ok (applied ++ [defaultStorageClass])) := by
  constructor
  · intro h
    simp [InstallStorageClass, NewProviderCustomNet, h]
  · intro h hApply
    simp [InstallStorageClass, NewProviderCustomNet, ApplyKubeSpecFromBytes, h, hApply]

/-- Witness for C9: with CSI disabled nothing is applied; with CSI enabled
exactly the default storage class manifest is applied. -/
theorem InstallStorageClass_csi_gate_witness :
    InstallStorageClass (NewProviderCustomNet vdcExNoCSI) kEx [] = Except.ok []
    ∧ InstallStorageClass (NewProviderCustomNet vdcEx) kEx []
        = Except.ok ([] ++ [defaultStorageClass]) :=
  ⟨(InstallStorageClass_csi_gate vdcExNoCSI kEx []).1 rfl,
   (InstallStorageClass_csi_gate vdcEx kEx []).2 rfl rfl⟩

theorem containsStr_mid6 (p1 sub p2 t1 t2 : String) :
    ContainsStr (p1 ++ sub ++ p2 ++ t1 ++ t2) sub :=
  ⟨p1, p2 ++ t1 ++ t2, by simp [strAppend_assoc]⟩

/-- Claim C6: when the machine-config immutability loop passes,
`ValidateNewSpec` rejects a changed datacenter Server with an error
containing both the previous and the new server strings, and analogously
for the datacenter-name and network fields (each checked once the fields
before it in the source are unchanged). -/
theorem ValidateNewSpec_datacenter_immutability
    (k : ProviderKubectlClient) (env : OsEnv) (clusterSpec : ClusterSpec)
    (prevSpec : Cluster) (prevDatacenter : VSphereDatacenterConfig)
    (hc : k.getEksaCluster = some prevSpec)
    (hvdc : k.getEksaVSphereDatacenterConfig prevSpec.Spec.DatacenterRef.Name
      = some prevDatacenter)
    (hloop : validateMachineConfigsLoop k clusterSpec
      (machineRefSliceToMap prevSpec.MachineConfigRefs)
      clusterSpec.Cluster.MachineConfigRefs = Except.ok ()) :
    (clusterSpec.VSphereDatacenter.Spec.Server ≠ prevDatacenter.Spec.Server →
      ∃ msg, ValidateNewSpec k env clusterSpec = Except.error msg
        ∧ ContainsStr msg prevDatacenter.Spec.Server
        ∧ ContainsStr msg clusterSpec.VSphereDatacenter.Spec.Server)
    ∧ (clusterSpec.VSphereDatacenter.Spec.Server = prevDatacenter.Spec.Server →
      clusterSpec.VSphereDatacenter.Spec.Datacenter ≠ prevDatacenter.Spec.Datacenter →
      ∃ msg, ValidateNewSpec k env clusterSpec = Except.error msg
        ∧ ContainsStr msg prevDatacenter.Spec.Datacenter
        ∧ ContainsStr msg clusterSpec.VSphereDatacenter.Spec.Datacenter)
    ∧ (clusterSpec.VSphereDatacenter.Spec.Server = prevDatacenter.Spec.Server →
      clusterSpec.VSphereDatacenter.Spec.Datacenter = prevDatacenter.Spec.Datacenter →
      clusterSpec.VSphereDatacenter.Spec.Network ≠ prevDatacenter.Spec.Network →
      ∃ msg, ValidateNewSpec k env clusterSpec = Except.error msg
        ∧ ContainsStr msg prevDatacenter.Spec.Network
        ∧ ContainsStr msg clusterSpec.VSphereDatacenter.Spec.Network) := by
  refine ⟨?_, ?_, ?_⟩
  · intro hs
    refine ⟨"spec.server is immutable. Previous value " ++ prevDatacenter.Spec.Server
      ++ ", new value " ++ clusterSpec.VSphereDatacenter.Spec.Server,
      ?_, containsStr_mid4 _ _ _ _, containsStr_last _ _⟩
    simp only [ValidateNewSpec, hc, hvdc, hloop]
    rw [if_pos hs]
  · intro hse hd
    refine ⟨"spec.datacenter is immutable. Previous value " ++ prevDatacenter.Spec.Datacenter
      ++ ", new value " ++ clusterSpec.VSphereDatacenter.Spec.Datacenter,
      ?_, containsStr_mid4 _ _ _ _, containsStr_last _ _⟩
    simp only [ValidateNewSpec, hc, hvdc, hloop]
    rw [if_neg (by simp [hse]), if_pos hd]
  · intro hse hde hn
    refine ⟨"spec.network is immutable. Previous value " ++ prevDatacenter.Spec.Network
      ++ ", new value " ++ clusterSpec.VSphereDatacenter.Spec.Network,
      ?_, containsStr_mid4 _ _ _ _, containsStr_last _ _⟩
    simp only [ValidateNewSpec, hc, hvdc, hloop]
    rw [if_neg (by simp [hse]), if_neg (by simp [hde]), if_pos hn]

/-- Environment matching the credentials stored in `kEx`'s secret. -/
def envEx : OsEnv := { VspherePassword := "pw", VsphereUsername := "user" }

/-- Environment whose username drifted from the stored secret. -/
def envDrift : OsEnv := { VspherePassword := "pw", VsphereUsername := "B" }

/-- Fixture: `specEx` with only the datacenter server changed. -/
def specExServerB : ClusterSpec :=
  { specEx with VSphereDatacenter :=
    { vdcEx with Spec := { vdcEx.Spec with Server := "vc2.example.com" } } }

/-- Witness for C6: a new spec whose server differs from the live value is
rejected with an error containing both server strings. -/
theorem ValidateNewSpec_datacenter_immutability_witness :
    specExServerB.VSphereDatacenter.Spec.Server ≠ vdcEx.Spec.Server
    ∧ ∃ msg, ValidateNewSpec kEx envEx specExServerB = Except.error msg
        ∧ ContainsStr msg vdcEx.Spec.Server
        ∧ ContainsStr msg specExServerB.VSphereDatacenter.Spec.Server :=
  ⟨by decide,
   (ValidateNewSpec_datacenter_immutability kEx envEx specExServerB clusterEx vdcEx
     (by decide) (by decide) rfl).1 (by decide)⟩

/-- Claim C7: when all datacenter and machine-config immutability checks
pass but the stored credentials secret differs from the environment values
(username or password), `ValidateNewSpec` fails with an error naming both
the password and the username environment variable keys. -/
theorem ValidateNewSpec_credential_drift
    (k : ProviderKubectlClient) (env : OsEnv) (clusterSpec : ClusterSpec)
    (prevSpec : Cluster) (prevDatacenter : VSphereDatacenterConfig)
    (oSecret : CredSecret)
    (hc : k.getEksaCluster = some prevSpec)
    (hvdc : k.getEksaVSphereDatacenterConfig prevSpec.Spec.DatacenterRef.Name
      = some prevDatacenter)
    (hloop : validateMachineConfigsLoop k clusterSpec
      (machineRefSliceToMap prevSpec.MachineConfigRefs)
      clusterSpec.Cluster.MachineConfigRefs = Except.ok ())
    (hse : clusterSpec.VSphereDatacenter.Spec.Server = prevDatacenter.Spec.Server)
    (hde : clusterSpec.VSphereDatacenter.Spec.Datacenter = prevDatacenter.Spec.Datacenter)
    (hne : clusterSpec.VSphereDatacenter.Spec.Network = prevDatacenter.Spec.Network)
    (hsecret : k.getSecretFromNamespace = some oSecret)
    (hdrift : oSecret.Password ≠ env.VspherePassword
      ∨ oSecret.Username ≠ env.VsphereUsername) :
    ∃ msg, ValidateNewSpec k env clusterSpec = Except.error msg
      ∧ ContainsStr msg vSpherePasswordKey
      ∧ ContainsStr msg vSphereUsernameKey := by
  have hchanged : secretContentsChanged k env = Except.ok true := by
    simp only [secretContentsChanged, hsecret]
    rcases hdrift with hpw | hus
    · rw [if_pos hpw]
    · by_cases hpw : oSecret.Password ≠ env.VspherePassword
      · rw [if_pos hpw]
      · rw [if_neg hpw, if_pos hus]
  refine ⟨"the VSphere credentials derived from " ++ vSpherePasswordKey
      ++ " and " ++ vSphereUsernameKey
      ++ " are immutable; please use the same credentials for the upgraded cluster",
    ?_,
    containsStr_mid6 _ _ _ _ _,
    containsStr_mid ("the VSphere credentials derived from " ++ vSpherePasswordKey
      ++ " and ") vSphereUsernameKey
      " are immutable; please use the same credentials for the upgraded cluster"⟩
  simp only [ValidateNewSpec, hc, hvdc, hloop, hchanged]
  rw [if_neg (by simp [hse]), if_neg (by simp [hde]), if_neg (by simp [hne])]
  simp

/-- Witness for C7: the stored username "user" differs from the environment
username "B" while every immutability check passes. -/
theorem ValidateNewSpec_credential_drift_witness :
    ∃ msg, ValidateNewSpec kEx envDrift specEx = Except.error msg
      ∧ ContainsStr msg vSpherePasswordKey
      ∧ ContainsStr msg vSphereUsernameKey :=
  ValidateNewSpec_credential_drift kEx envDrift specEx clusterEx vdcEx
    { Password := "pw", Username := "user" }
    (by decide) (by decide) rfl rfl rfl rfl (by decide)
    (Or.inr (by decide))

/-- Claim-side predicate for C8: some pinned component image digest changed
between the current and new versions bundle (the four digests the code
pins: driver, syncer, manager, kube-vip). -/
def pinnedDigestChanged (newSpec currentSpec : ClusterSpec) : Bool :=
  (newSpec.VersionsBundle.VSphere.Driver.ImageDigest
      != currentSpec.VersionsBundle.VSphere.Driver.ImageDigest)
  || (newSpec.VersionsBundle.VSphere.Syncer.ImageDigest
      != currentSpec.VersionsBundle.VSphere.Syncer.ImageDigest)
  || (newSpec.VersionsBundle.VSphere.Manager.ImageDigest
      != currentSpec.VersionsBundle.VSphere.Manager.ImageDigest)
  || (newSpec.VersionsBundle.VSphere.KubeVip.ImageDigest
      != currentSpec.VersionsBundle.VSphere.KubeVip.ImageDigest)

/-- Claim-side predicate for C8: the machine-config spec currently applied
in the cluster (the fetched one) differs from the new spec's same-named
machine config, a missing entry counting as a difference. -/
def machineConfigSpecDiffers (k : ProviderKubectlClient) (newClusterSpec : ClusterSpec)
    (ref : Ref) : Bool :=
  match k.getEksaVSphereMachineConfig ref.Name with
  | none => false
  | some existingVmc =>
    match newClusterSpec.VSphereMachineConfigs.lookup ref.Name with
    | none => true
    | some csmc => existingVmc.Spec != csmc.Spec

theorem machineConfigsSpecChanged_eq_any (k : ProviderKubectlClient)
    (newClusterSpec : ClusterSpec) :
    ∀ refs : List Ref,
    (∀ ref ∈ refs, (k.getEksaVSphereMachineConfig ref.Name).isSome) →
    machineConfigsSpecChanged k newClusterSpec refs
      = Except.ok (refs.any (machineConfigSpecDiffers k newClusterSpec)) := by
  intro refs h
  induction refs with
  | nil => simp [machineConfigsSpecChanged]
  | cons r rest ih =>
    have hr := h r (by simp)
    obtain ⟨vmc, hvmc⟩ := Option.isSome_iff_exists.mp hr
    simp only [machineConfigsSpecChanged, hvmc, List.any_cons]
    cases hlk : newClusterSpec.VSphereMachineConfigs.lookup r.Name with
    | none => simp [machineConfigSpecDiffers, hvmc, hlk]
    | some csmc =>
      dsimp only
      by_cases hne : vmc.Spec ≠ csmc.Spec
      · rw [if_pos hne]
        simp [machineConfigSpecDiffers, hvmc, hlk, bne_iff_ne, hne]
      · rw [if_neg hne]
        push_neg at hne
        simp [machineConfigSpecDiffers, hvmc, hlk, hne,
          ih (fun x hx => h x (by simp [hx]))]

/-- Claim C8: `UpgradeNeeded` returns true exactly when some pinned
component image digest changed, or the currently-applied datacenter config
spec differs from the new one, or some currently-applied machine config
spec differs from the new machine configs (and false when none hold),
assuming the live reads succeed. -/
theorem UpgradeNeeded_characterization (k : ProviderKubectlClient)
    (newSpec currentSpec : ClusterSpec) (existingVdc : VSphereDatacenterConfig)
    (hvdc : k.getEksaVSphereDatacenterConfig currentSpec.Cluster.Spec.DatacenterRef.Name
      = some existingVdc)
    (hfetch : ∀ ref ∈ currentSpec.Cluster.MachineConfigRefs,
      (k.getEksaVSphereMachineConfig ref.Name).isSome) :
    UpgradeNeeded k newSpec currentSpec
      = Except.ok (pinnedDigestChanged newSpec currentSpec
          || (existingVdc.Spec != newSpec.VSphereDatacenter.Spec)
          || currentSpec.Cluster.MachineConfigRefs.any
              (machineConfigSpecDiffers k newSpec)) := by
  unfold UpgradeNeeded
  by_cases hd : (newSpec.VersionsBundle.VSphere.Driver.ImageDigest
        ≠ currentSpec.VersionsBundle.VSphere.Driver.ImageDigest
      ∨ newSpec.VersionsBundle.VSphere.Syncer.ImageDigest
        ≠ currentSpec.VersionsBundle.VSphere.Syncer.ImageDigest
      ∨ newSpec.VersionsBundle.VSphere.Manager.ImageDigest
        ≠ currentSpec.VersionsBundle.VSphere.Manager.ImageDigest
      ∨ newSpec.VersionsBundle.VSphere.KubeVip.ImageDigest
        ≠ currentSpec.VersionsBundle.VSphere.KubeVip.ImageDigest)
  · rw [if_pos hd]
    have : pinnedDigestChanged newSpec currentSpec = true := by
      simp [pinnedDigestChanged, bne_iff_ne]
      tauto
    rw [this]
    simp
  · rw [if_neg hd]
    push_neg at hd
    obtain ⟨h1, h2, h3, h4⟩ := hd
    have hp : pinnedDigestChanged newSpec currentSpec = false := by
      simp [pinnedDigestChanged, h1, h2, h3, h4]
    simp only [hvdc, hp, Bool.false_or]
    by_cases hvs : existingVdc.Spec ≠ newSpec.VSphereDatacenter.Spec
    · rw [if_pos hvs]
      simp [bne_iff_ne, hvs]
    · rw [if_neg hvs]
      push_neg at hvs
      simp [hvs, machineConfigsSpecChanged_eq_any k newSpec
        currentSpec.Cluster.MachineConfigRefs hfetch]

/-- Witness for C8 at a concrete unchanged pair of specs (no digest,
datacenter or machine-config difference, so the result is `ok false`). -/
theorem UpgradeNeeded_characterization_witness :
    UpgradeNeeded kEx specEx specEx
      = Except.ok (pinnedDigestChanged specEx specEx
          || (vdcEx.Spec != specEx.VSphereDatacenter.Spec)
          || specEx.Cluster.MachineConfigRefs.any
              (machineConfigSpecDiffers kEx specEx)) :=
  UpgradeNeeded_characterization kEx specEx specEx vdcEx (by decide) (by decide)

/-- Fixture: `specEx` with only the versions-bundle number changed (forces new
templates during upgrade). -/
def specExBundle2 : ClusterSpec :=
  { specEx with Bundles := { Spec := { Number := 2 } } }

/-- Concrete external etcd configuration matching `clusterEx`. -/
def etcdCfgEx : ExternalEtcdConfiguration :=
  { Count := 1, MachineGroupRef := { Kind := "VSphereMachineConfig", Name := "etcd-mc" } }

/-- Claim C2: in an upgrade with external etcd configured where the etcd
differ requires a new template, the upgrade-in-progress=true annotation is
written to the live EtcdadmCluster strictly before the new etcd template
name is minted, and that minted name is the one included in the generated
control-plane spec; if the annotation write fails, no spec bytes are
returned. -/
theorem generateCAPISpecForUpgrade_etcd_ordering
    (k : ProviderKubectlClient) (now : Nat) (currentSpec newClusterSpec : ClusterSpec)
    (c : Cluster) (vdc : VSphereDatacenterConfig)
    (ecfg cEcfg : ExternalEtcdConfiguration)
    (etcdMachineConfig etcdMachineVmc : VSphereMachineConfig)
    (hc : k.getEksaCluster = some c)
    (hvdc : k.getEksaVSphereDatacenterConfig newClusterSpec.VSphereDatacenter.Name
      = some vdc)
    (hext : newClusterSpec.Cluster.Spec.ExternalEtcdConfiguration = some ecfg)
    (hemc : newClusterSpec.VSphereMachineConfigs.lookup ecfg.MachineGroupRef.Name
      = some etcdMachineConfig)
    (hcext : c.Spec.ExternalEtcdConfiguration = some cEcfg)
    (hevmc : k.getEksaVSphereMachineConfig cEcfg.MachineGroupRef.Name
      = some etcdMachineVmc)
    (hneed : NeedsNewEtcdTemplate currentSpec newClusterSpec vdc
      newClusterSpec.VSphereDatacenter etcdMachineVmc etcdMachineConfig = true) :
    (k.updateAnnotOk = false →
      ∃ e, (generateCAPISpecForUpgrade k now currentSpec newClusterSpec).2
        = Except.error e)
    ∧ (∀ cps ws, (generateCAPISpecForUpgrade k now currentSpec newClusterSpec).2
        = Except.ok (cps, ws) →
      (generateCAPISpecForUpgrade k now currentSpec newClusterSpec).1
        = [ProvEvent.updateAnnot "etcdadmcluster"
            (newClusterSpec.Cluster.Name ++ "-etcd") upgradeInProgressKey "true",
           ProvEvent.mintEtcdTemplate
            (EtcdMachineTemplateName newClusterSpec.Cluster.Name now)]
      ∧ cps.EtcdTemplateName = EtcdMachineTemplateName newClusterSpec.Cluster.Name now) := by
  have hphase : etcdPhase k now currentSpec newClusterSpec c vdc
      = (if k.updateAnnotOk then
          ([ProvEvent.updateAnnot "etcdadmcluster"
              (newClusterSpec.Cluster.Name ++ "-etcd") upgradeInProgressKey "true",
            ProvEvent.mintEtcdTemplate
              (EtcdMachineTemplateName newClusterSpec.Cluster.Name now)],
           Except.ok (EtcdMachineTemplateName newClusterSpec.Cluster.Name now))
         else
          ([ProvEvent.updateAnnot "etcdadmcluster"
              (newClusterSpec.Cluster.Name ++ "-etcd") upgradeInProgressKey "true"],
           Except.error "UpdateAnnot failed")) := by
    simp only [etcdPhase, hext, hemc, hcext, hevmc, hneed]
    rw [if_pos trivial]
  rcases hcp : cpTemplatePhase k now currentSpec newClusterSpec c vdc with e | cpName
  · have hg : generateCAPISpecForUpgrade k now currentSpec newClusterSpec
        = ([], Except.error e) := by
      simp only [generateCAPISpecForUpgrade, hc, hvdc, hcp]
    refine ⟨fun _ => ⟨e, by rw [hg]⟩, fun cps ws hok => ?_⟩
    rw [hg] at hok
    simp at hok
  · rcases hw : workerPhase k now currentSpec newClusterSpec vdc
        (BuildMapForWorkerNodeGroupsByName
          currentSpec.Cluster.Spec.WorkerNodeGroupConfigurations)
        newClusterSpec.Cluster.Spec.WorkerNodeGroupConfigurations with e | ⟨wNames, kNames⟩
    · have hg : generateCAPISpecForUpgrade k now currentSpec newClusterSpec
          = ([], Except.error e) := by
        simp only [generateCAPISpecForUpgrade, hc, hvdc, hcp, hw]
      refine ⟨fun _ => ⟨e, by rw [hg]⟩, fun cps ws hok => ?_⟩
      rw [hg] at hok
      simp at hok
    · by_cases hak : k.updateAnnotOk = true
      · have hg : generateCAPISpecForUpgrade k now currentSpec newClusterSpec
            = ([ProvEvent.updateAnnot "etcdadmcluster"
                  (newClusterSpec.Cluster.Name ++ "-etcd") upgradeInProgressKey "true",
                ProvEvent.mintEtcdTemplate
                  (EtcdMachineTemplateName newClusterSpec.Cluster.Name now)],
               Except.ok
                ({ Spec := newClusterSpec
                   ControlPlaneTemplateName := cpName
                   EtcdTemplateName :=
                     EtcdMachineTemplateName newClusterSpec.Cluster.Name now },
                 { Spec := newClusterSpec
                   WorkloadTemplateNames := wNames
                   KubeadmconfigTemplateNames := kNames })) := by
          simp only [generateCAPISpecForUpgrade, hc, hvdc, hcp, hw, hphase, if_pos hak]
        refine ⟨fun hfalse => absurd hak (by simp [hfalse]), fun cps ws hok => ?_⟩
        rw [hg] at hok
        simp only [Except.ok.injEq, Prod.mk.injEq] at hok
        obtain ⟨hcps, _⟩ := hok
        constructor
        · rw [hg]
        · rw [← hcps]
      · have hg : generateCAPISpecForUpgrade k now currentSpec newClusterSpec
            = ([ProvEvent.updateAnnot "etcdadmcluster"
                  (newClusterSpec.Cluster.Name ++ "-etcd") upgradeInProgressKey "true"],
               Except.error "UpdateAnnot failed") := by
          simp only [generateCAPISpecForUpgrade, hc, hvdc, hcp, hw, hphase, if_neg hak]
        refine ⟨fun _ => ⟨"UpdateAnnot failed", by rw [hg]⟩, fun cps ws hok => ?_⟩
        rw [hg] at hok
        simp at hok

/-- Witness for C2: a bundle-number bump with external etcd, where every
live read succeeds and the annotation write succeeds. -/
theorem generateCAPISpecForUpgrade_etcd_ordering_witness :
    (kEx.updateAnnotOk = false →
      ∃ e, (generateCAPISpecForUpgrade kEx 7 specEx specExBundle2).2
        = Except.error e)
    ∧ (∀ cps ws, (generateCAPISpecForUpgrade kEx 7 specEx specExBundle2).2
        = Except.ok (cps, ws) →
      (generateCAPISpecForUpgrade kEx 7 specEx specExBundle2).1
        = [ProvEvent.updateAnnot "etcdadmcluster"
            (specExBundle2.Cluster.Name ++ "-etcd") upgradeInProgressKey "true",
           ProvEvent.mintEtcdTemplate
            (EtcdMachineTemplateName specExBundle2.Cluster.Name 7)]
      ∧ cps.EtcdTemplateName = EtcdMachineTemplateName specExBundle2.Cluster.Name 7) :=
  generateCAPISpecForUpgrade_etcd_ordering kEx 7 specEx specExBundle2 clusterEx vdcEx
    etcdCfgEx etcdCfgEx etcdMcEx etcdMcEx
    rfl (by decide) rfl (by decide) rfl (by decide) (by decide)

theorem generateSSH_stable (gen : Nat → Option String) (genKey : String) (count : Nat)
    (hk : genKey ≠ "") :
    ∀ mcs : List VSphereMachineConfig,
    (∀ mc ∈ mcs, (firstSSHKey mc).isSome) →
    ∃ mcs', generateSSHKeysIfNotSet gen genKey count mcs = some (mcs', count)
      ∧ List.Forall₂ (fun mc mc' =>
          (firstSSHKey mc = some "" → mc' = setFirstSSHKey mc genKey)
          ∧ (∀ s, firstSSHKey mc = some s → s ≠ "" → mc' = mc)) mcs mcs' := by
  intro mcs
  induction mcs with
  | nil => exact fun _ => ⟨[], rfl, List.Forall₂.nil⟩
  | cons mc rest ih =>
    intro h
    obtain ⟨s, hs⟩ := Option.isSome_iff_exists.mp (h mc (by simp))
    obtain ⟨rest', hrest, hfa⟩ := ih (fun x hx => h x (by simp [hx]))
    by_cases hse : s = ""
    · subst hse
      refine ⟨setFirstSSHKey mc genKey :: rest', ?_, ?_⟩
      · simp only [generateSSHKeysIfNotSet, hs]
        rw [if_pos trivial, if_pos hk, hrest]
        rfl
      · refine List.Forall₂.cons ⟨fun _ => rfl, fun s' hs' hne => ?_⟩ hfa
        exact absurd (Option.some.inj (hs.symm.trans hs')).symm hne
    · refine ⟨mc :: rest', ?_, ?_⟩
      · simp only [generateSSHKeysIfNotSet, hs]
        rw [if_neg hse, hrest]
        rfl
      · refine List.Forall₂.cons ⟨fun hcon => ?_, fun _ _ _ => rfl⟩ hfa
        exact absurd (Option.some.inj (hs.symm.trans hcon)) hse

/-- Claim C10: SSH key generation (invoked by SetupAndValidateCreateCluster)
assigns one single generated key shared across all machine configs: every
config whose first authorized key is empty receives the same generated key,
at most one key is generated per call, and configs with a non-empty first
key are left unchanged. (The key generator is assumed to produce a
non-empty key.) -/
theorem generateSSHKeys_shared_single_key (gen : Nat → Option String) (k0 : String)
    (hgen : gen 0 = some k0) (hk0 : k0 ≠ "") :
    ∀ mcs : List VSphereMachineConfig,
    (∀ mc ∈ mcs, (firstSSHKey mc).isSome) →
    ∃ mcs' n, generateSSHKeysIfNotSet gen "" 0 mcs = some (mcs', n) ∧ n ≤ 1
      ∧ List.Forall₂ (fun mc mc' =>
          (firstSSHKey mc = some "" → mc' = setFirstSSHKey mc k0)
          ∧ (∀ s, firstSSHKey mc = some s → s ≠ "" → mc' = mc)) mcs mcs' := by
  intro mcs
  induction mcs with
  | nil => exact fun _ => ⟨[], 0, rfl, by norm_num, List.Forall₂.nil⟩
  | cons mc rest ih =>
    intro h
    obtain ⟨s, hs⟩ := Option.isSome_iff_exists.mp (h mc (by simp))
    by_cases hse : s = ""
    · subst hse
      obtain ⟨rest', hrest, hfa⟩ := generateSSH_stable gen k0 1 hk0 rest
        (fun x hx => h x (by simp [hx]))
      refine ⟨setFirstSSHKey mc k0 :: rest', 1, ?_, le_refl 1, ?_⟩
      · simp only [generateSSHKeysIfNotSet, hs]
        rw [if_pos trivial, if_neg (by simp), hgen]
        simp [hrest]
      · refine List.Forall₂.cons ⟨fun _ => rfl, fun s' hs' hne => ?_⟩ hfa
        exact absurd (Option.some.inj (hs.symm.trans hs')).symm hne
    · obtain ⟨rest', n, hrest, hn, hfa⟩ := ih (fun x hx => h x (by simp [hx]))
      refine ⟨mc :: rest', n, ?_, hn, ?_⟩
      · simp only [generateSSHKeysIfNotSet, hs]
        rw [if_neg hse, hrest]
        rfl
      · refine List.Forall₂.cons ⟨fun hcon => ?_, fun _ _ _ => rfl⟩ hfa
        exact absurd (Option.some.inj (hs.symm.trans hcon)) hse

/-- Concrete machine config with an unset (empty) first SSH key. -/
def mcExEmptyKey : VSphereMachineConfig :=
  { Name := "worker-mc-2"
    Spec := { mcEx.Spec with Users := [{ Name := "capv", SshAuthorizedKeys := [""] }] } }

/-- Witness for C10: one config with an empty key and one with a set key;
exactly one key is generated and shared. -/
theorem generateSSHKeys_shared_single_key_witness :
    ∃ mcs' n,
      generateSSHKeysIfNotSet (fun _ => some "ssh-rsa GEN") "" 0 [mcExEmptyKey, mcEx]
        = some (mcs', n) ∧ n ≤ 1
      ∧ List.Forall₂ (fun mc mc' =>
          (firstSSHKey mc = some "" → mc' = setFirstSSHKey mc "ssh-rsa GEN")
          ∧ (∀ s, firstSSHKey mc = some s → s ≠ "" → mc' = mc))
        [mcExEmptyKey, mcEx] mcs' :=
  generateSSHKeys_shared_single_key (fun _ => some "ssh-rsa GEN") "ssh-rsa GEN"
    rfl (by decide) [mcExEmptyKey, mcEx] (by decide)
